import Mathlib

/-!
Shallow embedding of the booking store of `databas23e.py` (class `Database`)
together with the slot-complement computation of `Beauty_salon_bot.py`.

The persistent SQLite state is modelled as an explicit `DB` value threaded
through the operations:
* the `bookings` table is a list of `Booking` records; its SQL constraint
  `UNIQUE(booking_date, booking_time)` fires exactly when an existing row has
  the same `(booking_date, booking_time)` pair, so the `aiosqlite.IntegrityError`
  branch of `add_booking` is modelled by the `slotTaken` test;
* `id INTEGER PRIMARY KEY AUTOINCREMENT` is modelled by the `next_id` counter
  (AUTOINCREMENT starts at 1 and never reuses ids);
* the `settings` table holds the single key `admin_id`; `set_admin_id` stores
  `str(admin_id)` and `get_admin_id` reads it back with `int(row[0])`, and as
  Python's `int` is exact on `str` output the stored TEXT cell is modelled
  directly as the integer it denotes;
* the `statistics` table is the append-only list `statistics`;
* the wall-clock columns `created_at` / `timestamp` (SQL `CURRENT_TIMESTAMP`)
  play no role in any operation's logic and are omitted; `datetime.now()` in
  `get_statistics_summary` is passed in as the explicit `today` argument.
-/

namespace BeautySalon

/-- Row of the `bookings` table (column `created_at` omitted, see header). -/
structure Booking where
  id : Nat
  user_id : Int
  username : String
  first_name : String
  last_name : String
  phone : Option String
  service : String
  booking_date : String
  booking_time : String
  deriving DecidableEq, Repr

/-- Row of the append-only `statistics` table (wall-clock `timestamp` omitted). -/
structure StatEvent where
  action_type : String
  user_id : Option Int
  details : Option String
  deriving DecidableEq, Repr

/-- The whole persisted SQLite state. -/
structure DB where
  bookings : List Booking
  next_id : Nat
  admin_id : Option Int
  statistics : List StatEvent
  deriving DecidableEq, Repr

/-- State produced by `Database.init_db`: empty tables, AUTOINCREMENT at 1. -/
def init_db : DB := ⟨[], 1, none, []⟩

/-- Whether an existing row occupies `(booking_date, booking_time)`; the SQL
constraint `UNIQUE(booking_date, booking_time)` rejects an INSERT exactly when
this holds. -/
def slotTaken (db : DB) (booking_date booking_time : String) : Bool :=
  db.bookings.any (fun b => b.booking_date == booking_date && b.booking_time == booking_time)

/-- `Database.add_statistics`: INSERT INTO statistics. -/
def add_statistics (db : DB) (action_type : String) (user_id : Option Int)
    (details : Option String) : DB :=
  { db with statistics := db.statistics ++ [⟨action_type, user_id, details⟩] }

/-- `Database.add_booking`: INSERT INTO bookings; on `IntegrityError` (the
UNIQUE(booking_date, booking_time) constraint) returns `False` with the state
untouched, otherwise appends the row with the fresh AUTOINCREMENT id, logs a
`booking_created` statistics event, and returns `True`. -/
def add_booking (db : DB) (user_id : Int)
    (username first_name last_name service booking_date booking_time : String)
    (phone : Option String := none) : Bool × DB :=
  if slotTaken db booking_date booking_time then
    (false, db)
  else
    let b : Booking :=
      ⟨db.next_id, user_id, username, first_name, last_name, phone,
        service, booking_date, booking_time⟩
    let db1 : DB := { db with bookings := db.bookings ++ [b], next_id := db.next_id + 1 }
    (true, add_statistics db1 "booking_created" (some user_id)
      (some (service ++ " on " ++ booking_date ++ " " ++ booking_time)))

/-- Python truthiness of the optional `user_id` argument of `delete_booking`:
the code runs `if user_id:`, which is false both for `None` and for `0`. -/
def pyTruthy : Option Int → Bool
  | none => false
  | some u => u != 0

/-- Predicate selecting the rows the DELETE statement of
`Database.delete_booking` removes: with a truthy `user_id` the statement is
`DELETE ... WHERE id = ? AND user_id = ?`, otherwise `DELETE ... WHERE id = ?`. -/
def deleteHit (booking_id : Nat) (user_id : Option Int) (b : Booking) : Bool :=
  if pyTruthy user_id then b.id == booking_id && some b.user_id == user_id
  else b.id == booking_id

/-- `Database.delete_booking`: runs the DELETE, reports `rowcount > 0`, and on
an actual deletion logs a `booking_deleted` statistics event. -/
def delete_booking (db : DB) (booking_id : Nat) (user_id : Option Int := none) :
    Bool × DB :=
  let remains := db.bookings.filter (fun b => !(deleteHit booking_id user_id b))
  let db1 : DB := { db with bookings := remains }
  if remains.length < db.bookings.length then
    (true, add_statistics db1 "booking_deleted" user_id
      (some ("booking_id=" ++ toString booking_id)))
  else
    (false, db1)

/-- SQL `ORDER BY booking_date, booking_time` comparison key used by
`get_user_bookings` and `get_all_bookings`. -/
def bookingLE (b1 b2 : Booking) : Bool :=
  decide (b1.booking_date < b2.booking_date ∨
    (b1.booking_date = b2.booking_date ∧ b1.booking_time ≤ b2.booking_time))

/-- `Database.get_user_bookings`: SELECT ... WHERE user_id = ? ORDER BY
booking_date, booking_time (the SQL projects a subset of the columns; the model
returns the full records). -/
def get_user_bookings (db : DB) (user_id : Int) : List Booking :=
  (db.bookings.filter (fun b => b.user_id == user_id)).mergeSort bookingLE

/-- `Database.get_all_bookings`: SELECT ... ORDER BY booking_date, booking_time. -/
def get_all_bookings (db : DB) : List Booking :=
  db.bookings.mergeSort bookingLE

/-- `Database.get_occupied_slots`: SELECT booking_time FROM bookings WHERE
booking_date = ?. -/
def get_occupied_slots (db : DB) (booking_date : String) : List String :=
  (db.bookings.filter (fun b => b.booking_date == booking_date)).map
    (fun b => b.booking_time)

/-- `Database.get_booking_by_id`: SELECT ... WHERE id = ?. -/
def get_booking_by_id (db : DB) (booking_id : Nat) : Option Booking :=
  db.bookings.find? (fun b => b.id == booking_id)

/-- `Database.get_admin_id`: SELECT value FROM settings WHERE key = 'admin_id',
converted back to an integer (None when the row is absent). -/
def get_admin_id (db : DB) : Option Int :=
  db.admin_id

/-- `Database.set_admin_id`: INSERT OR REPLACE INTO settings ('admin_id', ?). -/
def set_admin_id (db : DB) (admin_id : Int) : DB :=
  { db with admin_id := some admin_id }

/-- Result of `Database.get_statistics_summary`. -/
structure StatsSummary where
  total_bookings : Nat
  today_bookings : Nat
  unique_clients : Nat
  popular_services : List (String × Nat)
  deriving DecidableEq, Repr

/-- Descending-count comparison of `ORDER BY count DESC` in
`get_statistics_summary`. -/
def countGE (p q : String × Nat) : Bool :=
  decide (q.2 ≤ p.2)

/-- `Database.get_statistics_summary`: COUNT(*) over bookings, COUNT over
today's rows, COUNT(DISTINCT user_id), and the GROUP BY service counts ordered
by count descending and truncated by LIMIT 3.  `datetime.now()` is the
explicit `today` argument. -/
def get_statistics_summary (db : DB) (today : String) : StatsSummary :=
  let total := db.bookings.length
  let todays := (db.bookings.filter (fun b => b.booking_date == today)).length
  let uniq := ((db.bookings.map (fun b => b.user_id)).dedup).length
  let groups := ((db.bookings.map (fun b => b.service)).dedup).map
    (fun s => (s, (db.bookings.filter (fun b => b.service == s)).length))
  let popular := (groups.mergeSort countGE).take 3
  ⟨total, todays, uniq, popular⟩

/-- Slot-complement computation of `Beauty_salon_bot.py`
(`available_slots = [slot for slot in ALL_TIME_SLOTS if slot not in occupied_slots]`);
the fixed catalog `ALL_TIME_SLOTS` is the explicit first argument. -/
def available_slots (all_time_slots occupied : List String) : List String :=
  all_time_slots.filter (fun s => !occupied.contains s)

/-- One store operation, as invoked by the bot layer. -/
inductive Op where
  | add (user_id : Int)
      (username first_name last_name service booking_date booking_time : String)
      (phone : Option String)
  | del (booking_id : Nat) (user_id : Option Int)
  | setAdmin (admin_id : Int)
  deriving DecidableEq, Repr

/-- Effect of one operation on the persisted state. -/
def applyOp (db : DB) : Op → DB
  | .add uid un fn ln sv d t ph => (add_booking db uid un fn ln sv d t ph).2
  | .del bid uid => (delete_booking db bid uid).2
  | .setAdmin aid => set_admin_id db aid

/-- State reached from the freshly initialised database by a sequence of
store operations. -/
def run (ops : List Op) : DB :=
  ops.foldl applyOp init_db

/-- Whether an operation is the operator-identifier upsert. -/
def isSetAdmin : Op → Bool
  | .setAdmin _ => true
  | _ => false

/-- Slot-uniqueness invariant: any two distinct active bookings occupy
different `(booking_date, booking_time)` pairs. -/
def SlotUnique (db : DB) : Prop :=
  db.bookings.Pairwise
    (fun b1 b2 => (b1.booking_date, b1.booking_time) ≠ (b2.booking_date, b2.booking_time))

/-- Concrete sample state: one booking, id 1, owned by client 1001, at
("2025-03-10", "14:00"). -/
def dbOne : DB :=
  (add_booking init_db 1001 "u" "Ann" "B" "Haircut" "2025-03-10" "14:00" none).2

theorem slotTaken_eq_false_iff (db : DB) (d t : String) :
    slotTaken db d t = false ↔
      ∀ b ∈ db.bookings, (b.booking_date, b.booking_time) ≠ (d, t) := by
  simp [slotTaken, List.any_eq_false, Prod.ext_iff, not_and]

theorem slotTaken_of_mem {db : DB} {d t : String}
    (h : ∃ b ∈ db.bookings, b.booking_date = d ∧ b.booking_time = t) :
    slotTaken db d t = true := by
  obtain ⟨b, hb, hd, ht⟩ := h
  simp only [slotTaken, List.any_eq_true]
  exact ⟨b, hb, by simp [hd, ht]⟩

theorem delete_booking_bookings (db : DB) (bid : Nat) (uid : Option Int) :
    (delete_booking db bid uid).2.bookings
      = db.bookings.filter (fun b => !(deleteHit bid uid b)) := by
  by_cases hlt :
      (db.bookings.filter (fun b => !(deleteHit bid uid b))).length < db.bookings.length
  · simp [delete_booking, hlt, add_statistics]
  · simp [delete_booking, hlt]

theorem slotUnique_applyOp {db : DB} (h : SlotUnique db) (op : Op) :
    SlotUnique (applyOp db op) := by
  cases op with
  | add uid un fn ln sv d t ph =>
      by_cases hT : slotTaken db d t
      · simpa [applyOp, add_booking, hT] using h
      · have hfree := (slotTaken_eq_false_iff db d t).1 (by simpa using hT)
        have hbk : (applyOp db (Op.add uid un fn ln sv d t ph)).bookings
            = db.bookings ++ [⟨db.next_id, uid, un, fn, ln, ph, sv, d, t⟩] := by
          simp [applyOp, add_booking, hT, add_statistics]
        unfold SlotUnique
        rw [hbk, List.pairwise_append]
        refine ⟨h, List.pairwise_singleton _ _, ?_⟩
        intro x hx y hy
        rw [List.mem_singleton] at hy
        subst hy
        exact hfree x hx
  | del bid uid =>
      unfold SlotUnique
      rw [applyOp, delete_booking_bookings]
      exact List.Pairwise.sublist (List.filter_sublist _) h
  | setAdmin aid => exact h

theorem foldl_slotUnique (ops : List Op) :
    ∀ db, SlotUnique db → SlotUnique (ops.foldl applyOp db) := by
  induction ops with
  | nil => exact fun _ h => h
  | cons op rest ih => exact fun db h => ih _ (slotUnique_applyOp h op)

/-- C1: in every state reachable from the initialised database through the
store's operations, any two distinct active bookings have different
(date, time) pairs — at most one booking occupies a given slot, globally. -/
theorem slot_uniqueness_invariant (ops : List Op) : SlotUnique (run ops) :=
  foldl_slotUnique ops init_db (by simp [SlotUnique, init_db])

/-- C2: when some existing booking already occupies (date, time), a create for
that slot returns the `False` (slot-taken) result and leaves the whole state —
in particular the set of bookings — unchanged. -/
theorem create_on_occupied_slot (db : DB) (uid : Int)
    (un fn ln sv d t : String) (ph : Option String)
    (h : ∃ b ∈ db.bookings, b.booking_date = d ∧ b.booking_time = t) :
    add_booking db uid un fn ln sv d t ph = (false, db) := by
  simp [add_booking, slotTaken_of_mem h]

/-- Witness for C2 at a concrete state: `dbOne` holds a booking at
("2025-03-10", "14:00") and a second create for that slot fails unchanged. -/
theorem create_on_occupied_slot_witness :
    (∃ b ∈ dbOne.bookings, b.booking_date = "2025-03-10" ∧ b.booking_time = "14:00")
  ∧ add_booking dbOne 1002 "v" "Cleo" "D" "Manicure" "2025-03-10" "14:00" none
      = (false, dbOne) :=
  ⟨by decide, create_on_occupied_slot dbOne 1002 "v" "Cleo" "D" "Manicure"
    "2025-03-10" "14:00" none (by decide)⟩

theorem length_filter_lt_iff {α : Type} (p : α → Bool) (l : List α) :
    (List.filter p l).length < l.length ↔ ∃ a ∈ l, p a = false := by
  constructor
  · intro h
    by_contra hc
    push_neg at hc
    have hall : ∀ a ∈ l, p a = true := by
      intro a ha
      cases hpa : p a
      · exact absurd hpa (hc a ha)
      · rfl
    rw [List.filter_eq_self.2 hall] at h
    exact Nat.lt_irrefl _ h
  · rintro ⟨a, ha, hpa⟩
    have hne : (List.filter p l).length ≠ l.length := by
      intro he
      have := List.filter_length_eq_length.1 he a ha
      rw [hpa] at this
      exact Bool.false_ne_true this
    exact Nat.lt_of_le_of_ne (List.length_filter_le p l) hne

theorem delete_booking_fst (db : DB) (bid : Nat) (uid : Option Int) :
    (delete_booking db bid uid).1 = true ↔
      ∃ b ∈ db.bookings, deleteHit bid uid b = true := by
  have hiff := length_filter_lt_iff (fun b => !(deleteHit bid uid b)) db.bookings
  by_cases hlt :
      (db.bookings.filter (fun b => !(deleteHit bid uid b))).length < db.bookings.length
  · simp only [delete_booking, hlt, ite_true, true_iff]
    obtain ⟨a, ha, hpa⟩ := hiff.1 hlt
    exact ⟨a, ha, by simpa using hpa⟩
  · simp only [delete_booking, hlt, ite_false, Bool.false_eq_true, false_iff]
    rintro ⟨a, ha, hpa⟩
    exact hlt (hiff.2 ⟨a, ha, by simp [hpa]⟩)

theorem delete_booking_twice (db : DB) (bid : Nat) (uid : Option Int) :
    (delete_booking (delete_booking db bid uid).2 bid uid).1 = false := by
  have hnone : ¬ ∃ b ∈ (delete_booking db bid uid).2.bookings, deleteHit bid uid b = true := by
    rw [delete_booking_bookings]
    rintro ⟨b, hb, hhit⟩
    rw [List.mem_filter] at hb
    rw [hhit] at hb
    exact Bool.false_ne_true (by simpa using hb.2)
  cases hfst : (delete_booking (delete_booking db bid uid).2 bid uid).1
  · rfl
  · exact absurd ((delete_booking_fst _ _ _).1 hfst) hnone

theorem deleteHit_some_ne_zero {uid : Int} (h : uid ≠ 0) (bid : Nat) (b : Booking) :
    deleteHit bid (some uid) b = (b.id == bid && b.user_id == uid) := by
  simp [deleteHit, pyTruthy, h]

theorem deleteHit_none (bid : Nat) (b : Booking) :
    deleteHit bid none b = (b.id == bid) := rfl

theorem deleteHit_zero (bid : Nat) (b : Booking) :
    deleteHit bid (some 0) b = (b.id == bid) := by
  simp [deleteHit, pyTruthy]

/-- Counterexample to C3 as stated: `dbOne` holds the single booking id 1
owned by client 1001; a delete with the provided requester id 0 nevertheless
removes it and returns `True`, although no booking belongs to client 0 —
because the code tests Python truthiness of the requester id, not presence. -/
theorem delete_ownership_counterexample :
    (delete_booking dbOne 1 (some 0)).1 = true
  ∧ (delete_booking dbOne 1 (some 0)).2.bookings = []
  ∧ ∀ b ∈ dbOne.bookings, b.user_id ≠ 0 := by
  decide

/-- C3 (amended to requesters with non-zero id): for every provided non-zero
`requestingClientId` the delete removes exactly the records whose id and owner
both match and returns `True` iff such a record existed; with `None` the
deletion is unconditional on the owner; in both modes a second delete of the
same id returns `False`. -/
theorem delete_booking_ownership (db : DB) (bid : Nat) (uid : Int) (h : uid ≠ 0) :
    ((delete_booking db bid (some uid)).1 = true ↔
        ∃ b ∈ db.bookings, b.id = bid ∧ b.user_id = uid)
  ∧ (delete_booking db bid (some uid)).2.bookings
      = db.bookings.filter (fun b => !(b.id == bid && b.user_id == uid))
  ∧ ((delete_booking db bid none).1 = true ↔ ∃ b ∈ db.bookings, b.id = bid)
  ∧ (delete_booking db bid none).2.bookings
      = db.bookings.filter (fun b => !(b.id == bid))
  ∧ (delete_booking (delete_booking db bid (some uid)).2 bid (some uid)).1 = false
  ∧ (delete_booking (delete_booking db bid none).2 bid none).1 = false := by
  refine ⟨?_, ?_, ?_, ?_, delete_booking_twice _ _ _, delete_booking_twice _ _ _⟩
  · rw [delete_booking_fst]
    constructor
    · rintro ⟨b, hb, hhit⟩
      rw [deleteHit_some_ne_zero h] at hhit
      simp only [Bool.and_eq_true, beq_iff_eq] at hhit
      exact ⟨b, hb, hhit⟩
    · rintro ⟨b, hb, h1, h2⟩
      refine ⟨b, hb, ?_⟩
      rw [deleteHit_some_ne_zero h]
      simp [h1, h2]
  · rw [delete_booking_bookings]
    congr 1
    funext b
    rw [deleteHit_some_ne_zero h]
  · rw [delete_booking_fst]
    simp [deleteHit_none]
  · rw [delete_booking_bookings]
    congr 1

/-- Witness for the amended C3 at `dbOne` with the non-zero requester 1001. -/
theorem delete_booking_ownership_witness :
    ((delete_booking dbOne 1 (some 1001)).1 = true ↔
        ∃ b ∈ dbOne.bookings, b.id = 1 ∧ b.user_id = 1001)
  ∧ (delete_booking dbOne 1 (some 1001)).2.bookings
      = dbOne.bookings.filter (fun b => !(b.id == 1 && b.user_id == 1001))
  ∧ ((delete_booking dbOne 1 none).1 = true ↔ ∃ b ∈ dbOne.bookings, b.id = 1)
  ∧ (delete_booking dbOne 1 none).2.bookings
      = dbOne.bookings.filter (fun b => !(b.id == 1))
  ∧ (delete_booking (delete_booking dbOne 1 (some 1001)).2 1 (some 1001)).1 = false
  ∧ (delete_booking (delete_booking dbOne 1 none).2 1 none).1 = false :=
  delete_booking_ownership dbOne 1 1001 (by decide)

/-- First creation from the fresh database: succeeds, record gets id 1. -/
def create1 : Bool × DB :=
  add_booking init_db 1 "u" "Ann" "B" "Haircut" "2025-03-10" "14:00" none

/-- Second creation on a different slot: succeeds, record gets id 2. -/
def create2 : Bool × DB :=
  add_booking create1.2 2 "v" "Cleo" "D" "Haircut" "2025-03-10" "15:00" none

/-- Counterexample to C4 as stated: two successful creations assign their
records the distinct fresh ids 1 and 2, yet both calls return the very same
value — `add_booking` returns a boolean success flag, not the newly assigned
identifier. -/
theorem create_return_counterexample :
    create1.1 = create2.1
  ∧ create2.2.bookings.map (fun b => b.id) = [1, 2]
  ∧ (1 : Nat) ≠ 2 := by
  decide

/-- C4 (amended): a successful create returns the boolean `True`
(distinguishable from the `False` returned on an occupied slot); the created
record receives the fresh AUTOINCREMENT id internally, but that id is not the
return value. -/
theorem create_returns_success_flag (db : DB) (uid : Int)
    (un fn ln sv d t : String) (ph : Option String)
    (h : ∀ b ∈ db.bookings, (b.booking_date, b.booking_time) ≠ (d, t)) :
    (add_booking db uid un fn ln sv d t ph).1 = true
  ∧ (add_booking db uid un fn ln sv d t ph).2.bookings
      = db.bookings ++ [⟨db.next_id, uid, un, fn, ln, ph, sv, d, t⟩]
  ∧ (add_booking db uid un fn ln sv d t ph).2.next_id = db.next_id + 1
  ∧ true ≠ false := by
  have hT : slotTaken db d t = false := (slotTaken_eq_false_iff db d t).2 h
  refine ⟨?_, ?_, ?_, by decide⟩ <;> simp [add_booking, hT, add_statistics]

/-- Witness for the amended C4: creating from the empty database returns
`True` and appends the record with id 1. -/
theorem create_returns_success_flag_witness :
    (∀ b ∈ init_db.bookings, (b.booking_date, b.booking_time) ≠ ("2025-03-10", "14:00"))
  ∧ (add_booking init_db 1 "u" "Ann" "B" "Haircut" "2025-03-10" "14:00" none).1 = true
  ∧ (add_booking init_db 1 "u" "Ann" "B" "Haircut" "2025-03-10" "14:00" none).2.bookings
      = init_db.bookings ++
        [⟨init_db.next_id, 1, "u", "Ann", "B", none, "Haircut", "2025-03-10", "14:00"⟩]
  ∧ (add_booking init_db 1 "u" "Ann" "B" "Haircut" "2025-03-10" "14:00" none).2.next_id
      = init_db.next_id + 1
  ∧ true ≠ false :=
  ⟨by decide,
   create_returns_success_flag init_db 1 "u" "Ann" "B" "Haircut" "2025-03-10" "14:00" none
     (by decide)⟩

/-- Concrete sample state: bookings at ("2025-03-10", "14:00") and
("2025-03-10", "15:00") and nothing else. -/
def dbTwo : DB :=
  (add_booking dbOne 1002 "v" "Cleo" "D" "Manicure" "2025-03-10" "15:00" none).2

/-- C5: the occupied slots of a date are exactly the times of the active
bookings on that date; when those bookings are exactly two, at times T1 and
T2, the result is exactly {T1, T2} and the available list is the catalog
minus {T1, T2}. -/
theorem occupied_slots_spec (db : DB) (D : String) :
    (∀ t, t ∈ get_occupied_slots db D ↔
        ∃ b ∈ db.bookings, b.booking_date = D ∧ b.booking_time = t)
  ∧ ∀ T1 T2 (cat : List String),
      (db.bookings.filter (fun b => b.booking_date == D)).map
          (fun b => b.booking_time) = [T1, T2] →
      ((∀ t, t ∈ get_occupied_slots db D ↔ (t = T1 ∨ t = T2))
       ∧ ∀ s, s ∈ available_slots cat (get_occupied_slots db D) ↔
           (s ∈ cat ∧ ¬(s = T1 ∨ s = T2))) := by
  constructor
  · intro t
    simp only [get_occupied_slots, List.mem_map, List.mem_filter, beq_iff_eq]
    constructor
    · rintro ⟨b, ⟨hb, hd⟩, ht⟩
      exact ⟨b, hb, hd, ht⟩
    · rintro ⟨b, hb, hd, ht⟩
      exact ⟨b, ⟨hb, hd⟩, ht⟩
  · intro T1 T2 cat h
    have hocc : get_occupied_slots db D = [T1, T2] := h
    constructor
    · intro t
      rw [hocc]
      simp
    · intro s
      rw [available_slots, List.mem_filter, hocc]
      simp

/-- Witness for C5 at `dbTwo`, whose bookings on "2025-03-10" are exactly at
"14:00" and "15:00", against the catalog ["10:00", "14:00", "15:00"]. -/
theorem occupied_slots_spec_witness :
    ("14:00" ∈ get_occupied_slots dbTwo "2025-03-10" ↔
        ∃ b ∈ dbTwo.bookings, b.booking_date = "2025-03-10" ∧ b.booking_time = "14:00")
  ∧ ("14:00" ∈ get_occupied_slots dbTwo "2025-03-10" ↔
      ("14:00" = "14:00" ∨ "14:00" = "15:00"))
  ∧ ("10:00" ∈ available_slots ["10:00", "14:00", "15:00"]
        (get_occupied_slots dbTwo "2025-03-10") ↔
      ("10:00" ∈ ["10:00", "14:00", "15:00"] ∧ ¬("10:00" = "14:00" ∨ "10:00" = "15:00"))) :=
  ⟨(occupied_slots_spec dbTwo "2025-03-10").1 "14:00",
   ((occupied_slots_spec dbTwo "2025-03-10").2 "14:00" "15:00"
     ["10:00", "14:00", "15:00"] (by decide)).1 "14:00",
   ((occupied_slots_spec dbTwo "2025-03-10").2 "14:00" "15:00"
     ["10:00", "14:00", "15:00"] (by decide)).2 "10:00"⟩

/-- C6: a successful create appends exactly the one `booking_created` event,
and a successful delete exactly the one `booking_deleted` event, to the
append-only statistics log; failed calls append nothing. -/
theorem usage_event_side_effects (db : DB) (uid : Int)
    (un fn ln sv d t : String) (ph : Option String) (bid : Nat) (ruid : Option Int) :
    ((add_booking db uid un fn ln sv d t ph).1 = true →
      (add_booking db uid un fn ln sv d t ph).2.statistics
        = db.statistics ++
          [⟨"booking_created", some uid, some (sv ++ " on " ++ d ++ " " ++ t)⟩])
  ∧ ((add_booking db uid un fn ln sv d t ph).1 = false →
      (add_booking db uid un fn ln sv d t ph).2.statistics = db.statistics)
  ∧ ((delete_booking db bid ruid).1 = true →
      (delete_booking db bid ruid).2.statistics
        = db.statistics ++
          [⟨"booking_deleted", ruid, some ("booking_id=" ++ toString bid)⟩])
  ∧ ((delete_booking db bid ruid).1 = false →
      (delete_booking db bid ruid).2.statistics = db.statistics) := by
  by_cases hT : slotTaken db d t <;>
  by_cases hlt :
      (db.bookings.filter (fun b => !(deleteHit bid ruid b))).length < db.bookings.length <;>
  refine ⟨?_, ?_, ?_, ?_⟩ <;>
  simp [add_booking, delete_booking, hT, hlt, add_statistics]

/-- Witness for C6: a successful create and a successful operator delete at
`dbOne` each append their single statistics event. -/
theorem usage_event_side_effects_witness :
    (add_booking dbOne 1002 "v" "Cleo" "D" "Manicure" "2025-03-11" "10:00" none).2.statistics
      = dbOne.statistics ++
        [⟨"booking_created", some 1002,
          some ("Manicure" ++ " on " ++ "2025-03-11" ++ " " ++ "10:00")⟩]
  ∧ (delete_booking dbOne 1 none).2.statistics
      = dbOne.statistics ++
        [⟨"booking_deleted", none, some ("booking_id=" ++ toString 1)⟩] :=
  ⟨(usage_event_side_effects dbOne 1002 "v" "Cleo" "D" "Manicure" "2025-03-11" "10:00"
      none 1 none).1 (by decide),
   (usage_event_side_effects dbOne 1002 "v" "Cleo" "D" "Manicure" "2025-03-11" "10:00"
      none 1 none).2.2.1 (by decide)⟩

/-- Ascending SQL order on bookings, as a proposition: earlier date, or same
date and earlier-or-equal time. -/
def DateTimeLE (b1 b2 : Booking) : Prop :=
  b1.booking_date < b2.booking_date ∨
    (b1.booking_date = b2.booking_date ∧ b1.booking_time ≤ b2.booking_time)

theorem bookingLE_trans (a b c : Booking) (h1 : bookingLE a b) (h2 : bookingLE b c) :
    bookingLE a c := by
  simp only [bookingLE, decide_eq_true_eq] at h1 h2 ⊢
  rcases h1 with h1 | ⟨h1e, h1t⟩
  · rcases h2 with h2 | ⟨h2e, h2t⟩
    · exact Or.inl (h1.trans h2)
    · exact Or.inl (h2e ▸ h1)
  · rcases h2 with h2 | ⟨h2e, h2t⟩
    · exact Or.inl (h1e ▸ h2)
    · exact Or.inr ⟨h1e.trans h2e, h1t.trans h2t⟩

theorem bookingLE_total (a b : Booking) : bookingLE a b || bookingLE b a := by
  simp only [bookingLE, Bool.or_eq_true, decide_eq_true_eq]
  rcases lt_trichotomy a.booking_date b.booking_date with h | h | h
  · exact Or.inl (Or.inl h)
  · rcases le_total a.booking_time b.booking_time with ht | ht
    · exact Or.inl (Or.inr ⟨h, ht⟩)
    · exact Or.inr (Or.inr ⟨h.symm, ht⟩)
  · exact Or.inr (Or.inl h)

theorem pairwise_mergeSort_bookingLE (l : List Booking) :
    (l.mergeSort bookingLE).Pairwise DateTimeLE := by
  have h := @List.sorted_mergeSort Booking bookingLE bookingLE_trans bookingLE_total l
  exact h.imp (fun hab => by simpa [bookingLE, DateTimeLE] using hab)

/-- C8: the per-client view is a permutation of the client's active bookings,
sorted by (date, time) ascending, and empty when the client has none; the
all-bookings view is a permutation of all active bookings, sorted the same
way. -/
theorem read_views_spec (db : DB) (uid : Int) :
    (get_user_bookings db uid).Perm (db.bookings.filter (fun b => b.user_id == uid))
  ∧ (get_user_bookings db uid).Pairwise DateTimeLE
  ∧ (db.bookings.filter (fun b => b.user_id == uid) = [] → get_user_bookings db uid = [])
  ∧ (get_all_bookings db).Perm db.bookings
  ∧ (get_all_bookings db).Pairwise DateTimeLE := by
  refine ⟨List.mergeSort_perm _ _, pairwise_mergeSort_bookingLE _, ?_,
    List.mergeSort_perm _ _, pairwise_mergeSort_bookingLE _⟩
  intro hnil
  rw [get_user_bookings, hnil]
  simp

/-- Witness for C8 at `dbTwo` for client 1001, who owns exactly booking id 1. -/
theorem read_views_spec_witness :
    (get_user_bookings dbTwo 1001).Perm
      (dbTwo.bookings.filter (fun b => b.user_id == 1001))
  ∧ (get_user_bookings dbTwo 1001).Pairwise DateTimeLE
  ∧ (dbTwo.bookings.filter (fun b => b.user_id == 1001) = [] →
      get_user_bookings dbTwo 1001 = [])
  ∧ (get_all_bookings dbTwo).Perm dbTwo.bookings
  ∧ (get_all_bookings dbTwo).Pairwise DateTimeLE :=
  read_views_spec dbTwo 1001

theorem countGE_trans (a b c : String × Nat) (h1 : countGE a b) (h2 : countGE b c) :
    countGE a c := by
  simp only [countGE, decide_eq_true_eq] at h1 h2 ⊢
  exact h2.trans h1

theorem countGE_total (a b : String × Nat) : countGE a b || countGE b a := by
  simp only [countGE, Bool.or_eq_true, decide_eq_true_eq]
  exact (Nat.le_total b.2 a.2).imp id id

/-- C7: the summary's total equals the length of the all-bookings view, and
the popular-services ranking has at most 3 entries, ordered by booking count
descending. -/
theorem statistics_summary_spec (db : DB) (today : String) :
    (get_statistics_summary db today).total_bookings = (get_all_bookings db).length
  ∧ (get_statistics_summary db today).popular_services.length ≤ 3
  ∧ (get_statistics_summary db today).popular_services.Pairwise
      (fun p q => q.2 ≤ p.2) := by
  refine ⟨?_, ?_, ?_⟩
  · rw [get_statistics_summary, get_all_bookings, List.length_mergeSort]
  · rw [get_statistics_summary]
    exact List.length_take_le _ _
  · rw [get_statistics_summary]
    have hs := @List.sorted_mergeSort (String × Nat) countGE countGE_trans countGE_total
      (((db.bookings.map (fun b => b.service)).dedup).map
        (fun s => (s, (db.bookings.filter (fun b => b.service == s)).length)))
    have hp := hs.imp (fun hab => by simpa [countGE] using hab)
    exact List.Pairwise.sublist (List.take_sublist _ _) hp

/-- C9: a delete with the provided requester id 0 behaves on the bookings
table exactly like the operator's `None` — the code tests Python truthiness of
the requester id, not presence, so the ownership check is skipped — and in
particular a booking owned by a non-zero client is removed and the call
returns `True`. -/
theorem delete_zero_requester_bypasses_ownership (db : DB) (bid : Nat) :
    (delete_booking db bid (some 0)).1 = (delete_booking db bid none).1
  ∧ (delete_booking db bid (some 0)).2.bookings = (delete_booking db bid none).2.bookings
  ∧ ((∃ b ∈ db.bookings, b.id = bid ∧ b.user_id ≠ 0) →
      (delete_booking db bid (some 0)).1 = true
    ∧ ∀ b ∈ (delete_booking db bid (some 0)).2.bookings, b.id ≠ bid) := by
  have hfun : (fun b => !(deleteHit bid (some 0) b))
      = (fun b : Booking => !(deleteHit bid none b)) := by
    funext b
    rw [deleteHit_zero, deleteHit_none]
  refine ⟨?_, ?_, ?_⟩
  · by_cases hlt :
        (db.bookings.filter (fun b => !(deleteHit bid none b))).length < db.bookings.length
    · simp [delete_booking, hfun, hlt]
    · simp [delete_booking, hfun, hlt]
  · rw [delete_booking_bookings, delete_booking_bookings, hfun]
  · rintro ⟨b, hb, hid, hu⟩
    constructor
    · rw [delete_booking_fst]
      refine ⟨b, hb, ?_⟩
      rw [deleteHit_zero]
      simp [hid]
    · intro c hc
      rw [delete_booking_bookings, List.mem_filter] at hc
      intro hcid
      have h2 := hc.2
      rw [deleteHit_zero] at h2
      simp [hcid] at h2

/-- Witness for C9 at `dbOne`: its only booking, id 1, belongs to client 1001,
and the requester id 0 removes it. -/
theorem delete_zero_requester_witness :
    (delete_booking dbOne 1 (some 0)).1 = (delete_booking dbOne 1 none).1
  ∧ (delete_booking dbOne 1 (some 0)).2.bookings = (delete_booking dbOne 1 none).2.bookings
  ∧ ((delete_booking dbOne 1 (some 0)).1 = true
    ∧ ∀ b ∈ (delete_booking dbOne 1 (some 0)).2.bookings, b.id ≠ 1) :=
  ⟨(delete_zero_requester_bypasses_ownership dbOne 1).1,
   (delete_zero_requester_bypasses_ownership dbOne 1).2.1,
   (delete_zero_requester_bypasses_ownership dbOne 1).2.2 (by decide)⟩

theorem applyOp_admin_id {op : Op} (h : isSetAdmin op = false) (db : DB) :
    (applyOp db op).admin_id = db.admin_id := by
  cases op with
  | add uid un fn ln sv d t ph =>
      by_cases hT : slotTaken db d t <;> simp [applyOp, add_booking, hT, add_statistics]
  | del bid uid =>
      by_cases hlt :
          (db.bookings.filter (fun b => !(deleteHit bid uid b))).length < db.bookings.length <;>
        simp [applyOp, delete_booking, hlt, add_statistics]
  | setAdmin aid => simp [isSetAdmin] at h

theorem foldl_admin_id (ops : List Op) :
    ∀ db, (∀ op ∈ ops, isSetAdmin op = false) →
      (ops.foldl applyOp db).admin_id = db.admin_id := by
  induction ops with
  | nil => exact fun _ _ => rfl
  | cons op rest ih =>
      intro db h
      rw [List.foldl_cons, ih _ (fun o ho => h o (List.mem_cons_of_mem _ ho)),
        applyOp_admin_id (h op (List.mem_cons_self _ _))]

/-- C10: the operator-identifier upsert round-trips (`get` after `set`
returns the id just set, even after repeated sets), repeating the upsert with
the same id changes nothing, and a state reached without any `set` call reads
back `None`. -/
theorem operator_id_roundtrip (db : DB) (aid : Int) (ops : List Op)
    (h : ∀ op ∈ ops, isSetAdmin op = false) :
    get_admin_id (set_admin_id db aid) = some aid
  ∧ set_admin_id (set_admin_id db aid) aid = set_admin_id db aid
  ∧ get_admin_id (run ops) = none := by
  refine ⟨rfl, rfl, ?_⟩
  rw [get_admin_id, run, foldl_admin_id ops init_db h]
  rfl

/-- Witness for C10: setting 777 on the fresh database reads back 777; a run
of one create and one delete, with no set, reads back `None`. -/
theorem operator_id_roundtrip_witness :
    get_admin_id (set_admin_id init_db 777) = some 777
  ∧ set_admin_id (set_admin_id init_db 777) 777 = set_admin_id init_db 777
  ∧ get_admin_id
      (run [Op.add 1 "u" "Ann" "B" "Haircut" "2025-03-10" "14:00" none,
            Op.del 1 none]) = none :=
  operator_id_roundtrip init_db 777
    [Op.add 1 "u" "Ann" "B" "Haircut" "2025-03-10" "14:00" none, Op.del 1 none]
    (by decide)

end BeautySalon
